import Mathlib

/-!
Verification of the media-catalog application's parser endpoint, video
processor and authentication hook against their natural-language
specification.

The development shallowly embeds the relevant TypeScript source:
* `ParserApi` — the admin parser API route (the file contains two
  concatenated revisions of the handler; both are embedded where they
  differ).
* `VideoProc` — `VideoProcessor.processMediaVideo` and its helpers.
* `Auth` — the `useAuth` hook's `login`/`checkAuth` flows together with the
  Redux user slice.

Database rows are records, the database is an explicit state value, and
each handler is a pure function from request data and state to a response,
a new state and a trace of the writes it performed.  Network calls and
clock reads are supplied by explicit environment records.
-/

namespace ParserApi

/-- A `ParserStatus` row: status string, lastRun timestamp (epoch ms),
processed-items counter and error list. -/
structure ParserStatusRow where
  status : String
  lastRun : Option Int
  processedItems : Nat
  errors : List String
deriving DecidableEq, Repr

/-- A `ParserSettings` row (the five admin-editable fields; the
server-assigned `id` is outside the round-trip comparison). -/
structure ParserSettingsRow where
  kinopoiskApiKey : String
  omdbApiKey : String
  updateInterval : Int
  autoUpdate : Bool
  contentTypes : List String
deriving DecidableEq, Repr

/-- A `ParserLog` row. -/
structure ParserLogRow where
  message : String
  error : String
  timestamp : Int
deriving DecidableEq, Repr

/-- The database state touched by the parser endpoint: the singleton
status row (id 1), the singleton settings row (id 1) and the append-only
log table. -/
structure Db where
  parserStatus : Option ParserStatusRow
  parserSettings : Option ParserSettingsRow
  parserLogs : List ParserLogRow
deriving DecidableEq, Repr

/-- Writes performed by a handler, in order: a `parserStatus`
update/upsert (recording the resulting status value) or a `parserLog`
creation. -/
inductive PWrite
  | statusWrite (newStatus : String)
  | logCreate (message : String)
deriving DecidableEq, Repr

/-- HTTP status code plus the message/error string of the JSON body. -/
structure HttpResponse where
  status : Nat
  body : String
deriving DecidableEq, Repr

/-- JavaScript truthiness of an optional string request field:
`undefined` and the empty string are falsy. -/
def jsTruthy : Option String → Bool
  | none => false
  | some s => s ≠ ""

/-- `30 * 60 * 1000` — the staleness threshold used by the first-revision
start handler. -/
def thirtyMinutesMs : Int := 30 * 60 * 1000

/-- Shared tail of the first-revision start handler once the active guard
has been passed: one transaction that upserts the status row to `active`
(resetting `lastRun`, `errors`, `processedItems`) and creates one
"Парсер запущен" log row, followed by the request-body API-key check,
which 400s without rolling anything back. -/
def startProceedV1 (now : Int) (kApi oApi : Option String) (db : Db)
    (tr : List PWrite) : HttpResponse × Db × List PWrite :=
  let newStatus : ParserStatusRow :=
    { status := "active", lastRun := some now, processedItems := 0, errors := [] }
  let db1 : Db :=
    { db with parserStatus := some newStatus,
              parserLogs := db.parserLogs ++ [⟨"Парсер запущен", "", now⟩] }
  let tr1 := tr ++ [.statusWrite "active", .logCreate "Парсер запущен"]
  if ¬ jsTruthy kApi ∨ ¬ jsTruthy oApi then
    (⟨400, "Необходимо указать API ключи"⟩, db1, tr1)
  else
    (⟨200, "Парсер запущен"⟩, db1, tr1)

/-- First revision of `POST ?action=start` (part_003 lines 164–253):
if the status row is `active` and `lastRun` is older than thirty minutes
the row is first reset to `inactive` (stale-lock recovery) and the start
proceeds; if `active` and fresh the request is rejected with 400 and no
write happens.  `kApi`/`oApi` are the request-body API keys. -/
def handlerStartV1 (now : Int) (kApi oApi : Option String) (db : Db) :
    HttpResponse × Db × List PWrite :=
  match db.parserStatus with
  | some st =>
    if st.status = "active" then
      match st.lastRun with
      | some t =>
        if t < now - thirtyMinutesMs then
          let stReset :=
            { st with status := "inactive",
                      errors := ["Предыдущая сессия была прервана из-за таймаута"] }
          startProceedV1 now kApi oApi { db with parserStatus := some stReset }
            [.statusWrite "inactive"]
        else
          (⟨400, "Парсер уже запущен"⟩, db, [])
      | none =>
          (⟨400, "Парсер уже запущен"⟩, db, [])
    else
      startProceedV1 now kApi oApi db []
  | none => startProceedV1 now kApi oApi db []

/-- Second revision of `POST ?action=start` (part_003 lines 492–541):
any `active` status is rejected with 400 regardless of `lastRun` age;
otherwise the status row is upserted to `active` (no log row is created)
and missing environment API keys yield a 500 after that write. -/
def handlerStartV2 (now : Int) (envKApi envOApi : Option String) (db : Db) :
    HttpResponse × Db × List PWrite :=
  let proceed : HttpResponse × Db × List PWrite :=
    let newStatus : ParserStatusRow :=
      { status := "active", lastRun := some now, processedItems := 0, errors := [] }
    let db1 : Db := { db with parserStatus := some newStatus }
    let tr1 : List PWrite := [.statusWrite "active"]
    if ¬ jsTruthy envKApi ∨ ¬ jsTruthy envOApi then
      (⟨500, "Отсутствуют необходимые API ключи"⟩, db1, tr1)
    else
      (⟨200, "Парсер запущен"⟩, db1, tr1)
  match db.parserStatus with
  | some st =>
    if st.status = "active" then (⟨400, "Парсер уже запущен"⟩, db, [])
    else proceed
  | none => proceed

/-- The `{ settings, status }` payload returned by the GET handler and
stored in the request cache. -/
structure ParserPayload where
  settings : Option ParserSettingsRow
  status : Option ParserStatusRow
deriving DecidableEq, Repr

/-- The `result` object the first-revision GET handler builds after a
database read: the payload plus the read timestamp. -/
structure CachedResult where
  data : ParserPayload
  timestamp : Int
deriving DecidableEq, Repr

/-- What `setCachedData` stores: the value plus its own store
timestamp. -/
structure CacheEntry where
  value : CachedResult
  timestamp : Int
deriving DecidableEq, Repr

/-- The module-level in-memory `Map`.  Keys in the source are the strings
`parser_data_<userId>`; since the prefix is constant the map is keyed here
directly by the numeric user id. -/
abbrev Cache := List (Nat × CacheEntry)

/-- `CACHE_TTL = 60000` (one minute). -/
def CACHE_TTL : Int := 60000

/-- `cacheLifetime = 5000` (five seconds), the additional freshness gate
inside the first-revision GET handler. -/
def cacheLifetime : Int := 5000

/-- `cache.get(key)`. -/
def cacheGet (c : Cache) (k : Nat) : Option CacheEntry :=
  (c.find? (fun p => p.1 == k)).map Prod.snd

/-- `cache.delete(key)`. -/
def cacheDelete (c : Cache) (k : Nat) : Cache :=
  c.filter (fun p => p.1 != k)

/-- `cache.set(key, { value, timestamp: Date.now() })`. -/
def setCachedData (now : Int) (c : Cache) (k : Nat) (v : CachedResult) : Cache :=
  (k, { value := v, timestamp := now }) :: cacheDelete c k

/-- `getCachedData`: returns the stored value if younger than
`CACHE_TTL`, otherwise deletes the entry and returns null.  Also returns
the possibly-updated cache. -/
def getCachedData (now : Int) (c : Cache) (k : Nat) :
    Option CachedResult × Cache :=
  match cacheGet c k with
  | some d =>
    if now - d.timestamp < CACHE_TTL then (some d.value, c)
    else (none, cacheDelete c k)
  | none => (none, cacheDelete c k)

/-- The default settings row created by the GET handler's initialization
branch. -/
def defaultSettings : ParserSettingsRow :=
  { kinopoiskApiKey := "", omdbApiKey := "", updateInterval := 24,
    autoUpdate := true, contentTypes := ["movies", "series"] }

/-- The default status row created by the GET handler's initialization
branch. -/
def defaultStatus : ParserStatusRow :=
  { status := "inactive", lastRun := none, processedItems := 0, errors := [] }

/-- Response of the GET handler: status code plus payload (if 200). -/
structure GetResponse where
  status : Nat
  payload : Option ParserPayload
deriving DecidableEq, Repr

/-- Database tail of the first-revision GET handler once the cache was
missed: read both singleton rows (the retry loop around a reachable
database always succeeds on the first attempt and is elided), store the
result in the cache, then — if either row is missing — run the
initialization transaction, which `create`s both rows with id 1 and
therefore fails with a 503 if one of the two already exists. -/
def handlerGetDbV1 (now : Int) (userId : Nat) (db : Db) (c : Cache) :
    GetResponse × Db × Cache :=
  let settings := db.parserSettings
  let status := db.parserStatus
  let result : CachedResult :=
    { data := { settings := settings, status := status }, timestamp := now }
  let c2 := setCachedData now c userId result
  if settings.isNone ∨ status.isNone then
    if settings.isSome ∨ status.isSome then
      (⟨503, none⟩, db, c2)
    else
      let db1 : Db :=
        { db with parserSettings := some defaultSettings,
                  parserStatus := some defaultStatus }
      (⟨200, some ⟨db1.parserSettings, db1.parserStatus⟩⟩, db1, c2)
  else
    (⟨200, some ⟨settings, status⟩⟩, db, c2)

/-- First revision of the GET handler (part_003 lines 53–158): serve the
per-user cached payload if `getCachedData` returns it and it is younger
than `cacheLifetime`, otherwise fall through to the database. -/
def handlerGetV1 (now : Int) (userId : Nat) (db : Db) (c : Cache) :
    GetResponse × Db × Cache :=
  let (cachedData, c1) := getCachedData now c userId
  match cachedData with
  | some cd =>
    if now - cd.timestamp < cacheLifetime then
      (⟨200, some cd.data⟩, db, c1)
    else handlerGetDbV1 now userId db c1
  | none => handlerGetDbV1 now userId db c1

/-- The PUT handler (identical in both revisions of part_003): upsert the
settings singleton with the five request-body fields and return the
updated row.  The cache is not touched. -/
def handlerPutV1 (body : ParserSettingsRow) (db : Db) :
    ParserSettingsRow × Db :=
  let updatedSettings : ParserSettingsRow :=
    { kinopoiskApiKey := body.kinopoiskApiKey,
      omdbApiKey := body.omdbApiKey,
      updateInterval := body.updateInterval,
      autoUpdate := body.autoUpdate,
      contentTypes := body.contentTypes }
  (updatedSettings, { db with parserSettings := some updatedSettings })

end ParserApi

namespace VideoProc

/-- A `Media` row: id, optional release date (epoch ms) and status
enum (`MediaStatus` is a string enum; `"ERROR"` is the error state). -/
structure Media where
  id : Nat
  release_date : Option Int
  status : String
deriving DecidableEq, Repr

/-- A resolved video source.  `kind` models the `type` column
(`'movie' | 'trailer'`). -/
structure VSource where
  url : String
  quality : String
  kind : String
deriving DecidableEq, Repr

/-- The database state touched by `VideoProcessor`: the media table and
the video-source table (rows paired with their `media_id`). -/
structure MediaDb where
  media : List Media
  videoSources : List (Nat × VSource)
deriving DecidableEq, Repr

/-- Observable calls made while processing, in order. -/
inductive VPEvent
  | processTrailerCall (mediaId : Nat) (sourceId : String)
  | getVideoSourcesCall (sourceId : String)
  | saveVideoSourcesCall (mediaId : Nat) (count : Nat)
  | updateMediaStatusCall (mediaId : Nat) (newStatus : String)
deriving DecidableEq, Repr

/-- External effects of `VideoProcessor` that are not determined by the
source alone: the trailer-API answer (axios failures are caught inside
`getTrailerUrl` and already collapse to `none` there, so the field is the
post-filter result) and fault injection for the two `videoSource`
insertions, whose database errors propagate out of the `try` body. -/
structure VPEnv where
  trailerUrl : String → Option String
  createTrailerFails : Option String
  createManyFails : Option String

/-- `getTrailerUrl`: queries the kinopoisk videos endpoint and takes the
first `YOUTUBE`/`TRAILER` item's url; any request error is caught and
yields null.  The whole call is environment-supplied. -/
def getTrailerUrl (env : VPEnv) (sourceId : String) : Option String :=
  env.trailerUrl sourceId

/-- `getVKVideoSources` — unimplemented stub, returns `[]`. -/
def getVKVideoSources (_sourceId : String) : List VSource := []

/-- `getRuTubeVideoSources` — unimplemented stub, returns `[]`. -/
def getRuTubeVideoSources (_sourceId : String) : List VSource := []

/-- `getYouTubeVideoSources` — unimplemented stub, returns `[]`. -/
def getYouTubeVideoSources (_sourceId : String) : List VSource := []

/-- `getVideoSources`: concatenates the three provider fetchers.  Each is
wrapped in its own try/catch in the source; the stubs are pure `[]`
returns and cannot throw, so the catches are inert. -/
def getVideoSources (sourceId : String) : List VSource × List VPEvent :=
  let sources :=
    getVKVideoSources sourceId ++ getRuTubeVideoSources sourceId ++
      getYouTubeVideoSources sourceId
  (sources, [.getVideoSourcesCall sourceId])

/-- `prisma.media.findUnique({ where: { id: mediaId } })`. -/
def findUniqueMedia (db : MediaDb) (mediaId : Nat) : Option Media :=
  db.media.find? (fun m => m.id == mediaId)

/-- `processTrailer`: fetch the trailer url; if present, create one
`videoSource` row `{ media_id, url, 'HD', 'trailer' }`.  A failing create
re-throws (the catch logs and re-throws). -/
def processTrailer (env : VPEnv) (db : MediaDb) (mediaId : Nat)
    (sourceId : String) : Except String MediaDb :=
  match getTrailerUrl env sourceId with
  | some url =>
    match env.createTrailerFails with
    | some e => .error e
    | none =>
      .ok { db with videoSources := db.videoSources ++ [(mediaId, ⟨url, "HD", "trailer"⟩)] }
  | none => .ok db

/-- `saveVideoSources`: `createMany` of the resolved sources. -/
def saveVideoSources (env : VPEnv) (db : MediaDb) (mediaId : Nat)
    (sources : List VSource) : Except String MediaDb :=
  match env.createManyFails with
  | some e => .error e
  | none =>
    .ok { db with videoSources := db.videoSources ++ sources.map (fun s => (mediaId, s)) }

/-- `updateMediaStatus`: `prisma.media.update({ where: { id }, data:
{ status } })`.  Prisma's `update` throws (`P2025`, "Record to update not
found.") when no row matches the unique filter. -/
def updateMediaStatus (db : MediaDb) (mediaId : Nat) (newStatus : String) :
    Except String MediaDb :=
  if (findUniqueMedia db mediaId).isSome then
    .ok { db with media :=
            db.media.map fun m =>
              if m.id == mediaId then { m with status := newStatus } else m }
  else
    .error "Record to update not found."

/-- The `try` body of `processMediaVideo`: look up the media row (missing
row throws "Медиа не найдено"), compute `isReleased` (`release_date`
truthy and not after now), and take the trailer path, the
zero-sources-fallback trailer path, or the save path. -/
def processMediaVideoBody (env : VPEnv) (now : Int) (db : MediaDb)
    (mediaId : Nat) (sourceId : String) :
    Except String MediaDb × List VPEvent :=
  match findUniqueMedia db mediaId with
  | none => (.error "Медиа не найдено", [])
  | some media =>
    let isReleased : Bool :=
      match media.release_date with
      | some d => decide (d ≤ now)
      | none => false
    if !isReleased then
      (processTrailer env db mediaId sourceId, [.processTrailerCall mediaId sourceId])
    else
      let (videoSources, ev) := getVideoSources sourceId
      if videoSources.length = 0 then
        (processTrailer env db mediaId sourceId, ev ++ [.processTrailerCall mediaId sourceId])
      else
        (saveVideoSources env db mediaId videoSources,
          ev ++ [.saveVideoSourcesCall mediaId videoSources.length])

/-- `processMediaVideo`: run the body; on an escaping exception set the
media status to `ERROR` and re-throw.  If the status update itself throws
(e.g. the row never existed), that error replaces the original one, as an
exception inside a `catch` block does in JavaScript. -/
def processMediaVideo (env : VPEnv) (now : Int) (db : MediaDb)
    (mediaId : Nat) (sourceId : String) :
    Except String Unit × MediaDb × List VPEvent :=
  match processMediaVideoBody env now db mediaId sourceId with
  | (.ok db1, ev) => (.ok (), db1, ev)
  | (.error e, ev) =>
    match updateMediaStatus db mediaId "ERROR" with
    | .ok db1 => (.error e, db1, ev ++ [.updateMediaStatusCall mediaId "ERROR"])
    | .error e2 => (.error e2, db, ev)

/-- Number of `processTrailer` invocations recorded in a trace. -/
def countTrailerCalls (ev : List VPEvent) : Nat :=
  (ev.filter fun e => match e with
    | .processTrailerCall _ _ => true
    | _ => false).length

/-- Number of `getVideoSources` invocations recorded in a trace. -/
def countProviderCalls (ev : List VPEvent) : Nat :=
  (ev.filter fun e => match e with
    | .getVideoSourcesCall _ => true
    | _ => false).length

/-- Number of `saveVideoSources` invocations recorded in a trace. -/
def countSaveCalls (ev : List VPEvent) : Nat :=
  (ev.filter fun e => match e with
    | .saveVideoSourcesCall _ _ => true
    | _ => false).length

end VideoProc

namespace Auth

/-- The user profile record returned by `/api/profile`. -/
structure UserProfile where
  id : String
  username : String
  email : String
  role : String
deriving DecidableEq, Repr

/-- Redux actions dispatched by `useAuth`. -/
inductive Action
  | loginStart
  | loginSuccess (token : String)
  | loginFailure (message : String)
  | logoutAction
  | setProfile (p : UserProfile)
  | clearProfile
  | setLoading (b : Bool)
  | setError (m : Option String)
deriving DecidableEq, Repr

/-- The auth slice's observable fields. -/
structure AuthState where
  isAuthenticated : Bool
  error : Option String
deriving DecidableEq, Repr

/-- The user slice (part_007): profile, loading flag and error
message. -/
structure UserState where
  profile : Option UserProfile
  loading : Bool
  error : Option String
deriving DecidableEq, Repr

/-- The whole client state: the persisted bearer token
(`localStorage.getItem('token')`) plus the two Redux slices. -/
structure ClientState where
  storedToken : Option String
  auth : AuthState
  user : UserState
deriving DecidableEq, Repr

/-- The `userSlice` reducers (src/unnamed/part_007): `setProfile` stores
the payload, `clearProfile` nulls profile and error, `setLoading` and
`setError` store their payloads; other actions leave the slice
unchanged. -/
def applyUserAction (u : UserState) : Action → UserState
  | .setProfile p => { u with profile := some p }
  | .clearProfile => { u with profile := none, error := none }
  | .setLoading b => { u with loading := b }
  | .setError m => { u with error := m }
  | _ => u

/-- Modelled from the spec: the `authSlice` module
(`store/slices/authSlice`) is not among the source files; per §4.1–4.2 a
successful login/refresh marks the session authenticated, logout or
irrecoverable expiry forces the logged-out state, and a failed login
records a typed error message without persisting anything else. -/
def applyAuthAction (a : AuthState) : Action → AuthState
  | .loginStart => { a with error := none }
  | .loginSuccess _ => { isAuthenticated := true, error := none }
  | .loginFailure m => { isAuthenticated := false, error := some m }
  | .logoutAction => { a with isAuthenticated := false }
  | _ => a

/-- One dispatched action's effect on the whole client state. -/
def applyAction (s : ClientState) (act : Action) : ClientState :=
  { s with auth := applyAuthAction s.auth act,
           user := applyUserAction s.user act }

/-- A client state together with the trace of actions dispatched so
far. -/
structure Ctx where
  state : ClientState
  trace : List Action
deriving Repr

/-- `dispatch`: apply the action and record it. -/
def dispatch (c : Ctx) (a : Action) : Ctx :=
  { state := applyAction c.state a, trace := c.trace ++ [a] }

/-- `getToken` — read the persisted token. -/
def getToken (c : Ctx) : Option String :=
  c.state.storedToken

/-- `setToken` — persist a token. -/
def setToken (c : Ctx) (t : String) : Ctx :=
  { c with state := { c.state with storedToken := some t } }

/-- `removeToken` — delete the persisted token. -/
def removeToken (c : Ctx) : Ctx :=
  { c with state := { c.state with storedToken := none } }

/-- Outcome of a `/api/profile` fetch: 200 with a parsed body, a 401,
another non-ok status, or a body whose `res.json()` throws (`resOk` tells
whether the status was ok in that case). -/
inductive ProfileResp
  | ok (p : UserProfile)
  | unauthorized
  | failed (code : Nat)
  | badBody (resOk : Bool)
deriving DecidableEq, Repr

/-- Outcome of a `/api/auth/refresh` call. -/
inductive RefreshResp
  | ok (newToken : String)
  | okNoToken
  | unauthorized
  | failed
deriving DecidableEq, Repr

/-- A refresh outcome that does not produce a token ("cannot be
refreshed"). -/
def RefreshResp.isFailure : RefreshResp → Bool
  | .ok _ => false
  | _ => true

/-- Outcome of a `/api/auth/login` call. -/
inductive LoginResp
  | ok (token : String)
  | okNoToken
  | errorResp (code : Nat) (errMsg : Option String)
  | badBody
deriving DecidableEq, Repr

/-- The network environment: online flag and the responses of the three
endpoints (profile and refresh keyed by the bearer token sent). -/
structure NetEnv where
  online : Bool
  loginResp : LoginResp
  profileResp : String → ProfileResp
  refreshResp : String → RefreshResp

/-- `refreshToken` (useAuth.ts lines 89–120): posts to
`/api/auth/refresh` with the current token.  On ok-with-token it persists
the new token and dispatches `loginSuccess`; a 401 dispatches logout and
`clearProfile` and removes the token; every non-success returns false. -/
def refreshToken (env : NetEnv) (c : Ctx) : Bool × Ctx :=
  match getToken c with
  | none => (false, c)
  | some t =>
    match env.refreshResp t with
    | .ok newToken =>
      let c1 := setToken c newToken
      let c2 := dispatch c1 (.loginSuccess newToken)
      (true, c2)
    | .okNoToken => (false, c)
    | .unauthorized =>
      let c1 := dispatch c .logoutAction
      let c2 := dispatch c1 .clearProfile
      let c3 := removeToken c2
      (false, c3)
    | .failed => (false, c)

/-- The retry loop of `checkAuth` (useAuth.ts lines 261–349) with the
fuel being `retryCount`.  `token0` is the token captured before the loop;
the main fetch always uses it.  `lastError` threads the `lastError`
variable.  `.error` models an exception escaping the loop to `checkAuth`'s
outer catch; on exhausted fuel the code throws
`lastError || 'Не удалось выполнить запрос после всех попыток'`. -/
def checkAuthLoop (env : NetEnv) (token0 : String) :
    Nat → Option String → Ctx → Except String Unit × Ctx
  | 0, lastError, c =>
    (.error (lastError.getD "Не удалось выполнить запрос после всех попыток"), c)
  | r + 1, lastError, c =>
    match env.profileResp token0 with
    | .ok p =>
      let c1 := dispatch c (.loginSuccess token0)
      let c2 := dispatch c1 (.setProfile p)
      (.ok (), c2)
    | .badBody _ =>
      let e := "Ошибка при обработке ответа сервера"
      if r + 1 = 1 then (.error e, c)
      else checkAuthLoop env token0 r (some e) c
    | .failed _ =>
      checkAuthLoop env token0 r lastError c
    | .unauthorized =>
      let (isRefreshed, c1) := refreshToken env c
      if isRefreshed = false then
        if r + 1 = 1 then (.error "Не удалось обновить токен", c1)
        else checkAuthLoop env token0 r lastError c1
      else
        match getToken c1 with
        | none =>
          let e := "Токен отсутствует после обновления"
          if r + 1 = 1 then (.error e, c1)
          else checkAuthLoop env token0 r (some e) c1
        | some newToken =>
          match env.profileResp newToken with
          | .ok p =>
            let c2 := dispatch c1 (.loginSuccess newToken)
            let c3 := dispatch c2 (.setProfile p)
            (.ok (), c3)
          | .badBody true =>
            let e := "Ошибка при обработке ответа сервера после обновления токена"
            if r + 1 = 1 then (.error e, c1)
            else checkAuthLoop env token0 r (some e) c1
          | _ =>
            if r + 1 = 1 then
              (.error "Не удалось авторизоваться после обновления токена", c1)
            else checkAuthLoop env token0 r lastError c1

/-- `checkAuth` (useAuth.ts lines 246–365): with no stored token it
dispatches logout and `clearProfile` and returns false; otherwise it runs
the retry loop (three attempts).  An escaping exception is caught at the
top: when offline the state is left as-is, otherwise logout,
`clearProfile` and `removeToken` run.  The `finally` block dispatches
`setLoading false` on every path. -/
def checkAuth (env : NetEnv) (c : Ctx) : Bool × Ctx :=
  match getToken c with
  | none =>
    let c1 := dispatch c .logoutAction
    let c2 := dispatch c1 .clearProfile
    (false, c2)
  | some token =>
    let c1 := dispatch c (.setLoading true)
    let (result, c2) := checkAuthLoop env token 3 none c1
    match result with
    | .ok _ => (true, dispatch c2 (.setLoading false))
    | .error _ =>
      if env.online = false then
        (false, dispatch c2 (.setLoading false))
      else
        let c3 := dispatch c2 .logoutAction
        let c4 := dispatch c3 .clearProfile
        let c5 := removeToken c4
        (false, dispatch c5 (.setLoading false))

/-- Result object of `login`. -/
structure LoginResult where
  success : Bool
  error : Option String
deriving DecidableEq, Repr

/-- The post-login confirmation loop of `login` (useAuth.ts lines
417–461): each attempt runs `checkAuthImmediately` (= `checkAuth`), reads
the current token and fetches `/api/profile` with it; success dispatches
`setProfile` and returns.  Any failure is caught: when the last attempt
fails the token is removed, logout and `clearProfile` are dispatched and
'Не удалось подтвердить авторизацию' is thrown (the messages of earlier
swallowed attempts only feed the dead `lastError` variable and are not
tracked). -/
def loginProfileLoop (env : NetEnv) : Nat → Ctx → Except String Unit × Ctx
  | 0, c => (.error "Не удалось выполнить вход", c)
  | r + 1, c =>
    let (_, c1) := checkAuth env c
    let attempt : Option Ctx :=
      match getToken c1 with
      | none => none
      | some currentToken =>
        match env.profileResp currentToken with
        | .ok p => some (dispatch c1 (.setProfile p))
        | _ => none
    match attempt with
    | some c2 => (.ok (), c2)
    | none =>
      if r = 0 then
        let cA := removeToken c1
        let cB := dispatch cA .logoutAction
        let cC := dispatch cB .clearProfile
        (.error "Не удалось подтвердить авторизацию", cC)
      else loginProfileLoop env r c1

/-- `login` (useAuth.ts lines 367–487): offline short-circuits to a typed
failure; otherwise `loginStart` and `setLoading true` are dispatched, the
credentials are posted, failures (unparseable body, non-ok status with a
status-dependent message, missing token) throw to the catch which
dispatches `loginFailure` and returns `{ success: false, error }`, and a
token response persists the token, dispatches `loginSuccess` and runs the
confirmation loop.  `finally` dispatches `setLoading false`.  Navigation
(`router.push`) is outside the embedded state. -/
def login (env : NetEnv) (c : Ctx) : LoginResult × Ctx :=
  if env.online = false then
    let msg := "Нет подключения к интернету"
    (⟨false, some msg⟩, dispatch c (.loginFailure msg))
  else
    let c1 := dispatch c .loginStart
    let c2 := dispatch c1 (.setLoading true)
    let tryResult : Except String Unit × Ctx :=
      match env.loginResp with
      | .badBody => (.error "Ошибка при обработке ответа сервера", c2)
      | .errorResp code errMsg =>
        let msg :=
          if code = 401 then errMsg.getD "Неверные учетные данные"
          else if code = 500 then "Ошибка сервера, попробуйте позже"
          else "Ошибка авторизации"
        (.error msg, c2)
      | .okNoToken => (.error "Токен не получен от сервера", c2)
      | .ok token =>
        let cA := setToken c2 token
        let cB := dispatch cA (.loginSuccess token)
        loginProfileLoop env 3 cB
    match tryResult with
    | (.ok _, c3) => (⟨true, none⟩, dispatch c3 (.setLoading false))
    | (.error m, c3) =>
      let c4 := dispatch c3 (.loginFailure m)
      (⟨false, some m⟩, dispatch c4 (.setLoading false))

/-- Number of `setProfile` dispatches in a trace. -/
def countSetProfile (tr : List Action) : Nat :=
  (tr.filter fun a => match a with
    | .setProfile _ => true
    | _ => false).length

end Auth

namespace ParserApi

/-- The state/trace part of `startProceedV1` does not depend on the
API-key check: both response branches share the same writes. -/
theorem startProceedV1_snd (now : Int) (kApi oApi : Option String) (db : Db)
    (tr : List PWrite) :
    (startProceedV1 now kApi oApi db tr).2 =
      ({ db with parserStatus := some ⟨"active", some now, 0, []⟩,
                 parserLogs := db.parserLogs ++ [⟨"Парсер запущен", "", now⟩] },
        tr ++ [.statusWrite "active", .logCreate "Парсер запущен"]) := by
  unfold startProceedV1
  split <;> rfl

/-- With a missing body API key `startProceedV1` answers 400. -/
theorem startProceedV1_missingKeys (now : Int) (kApi oApi : Option String)
    (db : Db) (tr : List PWrite)
    (h : jsTruthy kApi = false ∨ jsTruthy oApi = false) :
    (startProceedV1 now kApi oApi db tr).1 =
      ⟨400, "Необходимо указать API ключи"⟩ := by
  unfold startProceedV1
  split
  · rfl
  · next hc =>
    push_neg at hc
    rcases h with h | h <;> simp [h] at hc

/-- A stale-active database: status `active`, `lastRun` at epoch 0,
queried well past the thirty-minute threshold. -/
def c1Db : Db := ⟨some ⟨"active", some 0, 5, []⟩, none, []⟩

/-- C1 counterexample: at a stale-active state (lastRun 2000000 ms ≈ 33
minutes old) the second revision of the start handler answers 400, leaves
the database — including the still-`active` status row — unchanged and
performs no write at all, so it neither resets the row to `inactive`, nor
re-activates it, nor creates a "started" log entry. -/
theorem claim1_counterexample_secondRevision :
    (handlerStartV2 2000000 (some "k") (some "o") c1Db).1.status = 400 ∧
    (handlerStartV2 2000000 (some "k") (some "o") c1Db).2.1 = c1Db ∧
    (handlerStartV2 2000000 (some "k") (some "o") c1Db).2.2 = [] :=
  ⟨rfl, rfl, rfl⟩

/-- C1 (amended to the first revision of the endpoint): when the status
row is `active` with a `lastRun` older than thirty minutes, the
first-revision start handler first writes the row back to `inactive`,
then sets it to `active`, and appends exactly one "Парсер запущен" log
row. -/
theorem claim1_staleStart_firstRevision (now t : Int) (kApi oApi : Option String)
    (db : Db) (st : ParserStatusRow)
    (hst : db.parserStatus = some st)
    (hactive : st.status = "active")
    (hlast : st.lastRun = some t)
    (hstale : t < now - thirtyMinutesMs) :
    (handlerStartV1 now kApi oApi db).2.2 =
      [.statusWrite "inactive", .statusWrite "active", .logCreate "Парсер запущен"] ∧
    (handlerStartV1 now kApi oApi db).2.1.parserStatus =
      some ⟨"active", some now, 0, []⟩ ∧
    (handlerStartV1 now kApi oApi db).2.1.parserLogs =
      db.parserLogs ++ [⟨"Парсер запущен", "", now⟩] := by
  unfold handlerStartV1
  rw [hst]
  simp only [hactive, hlast, hstale, eq_self_iff_true, if_true]
  simp [startProceedV1_snd]

/-- Witness for `claim1_staleStart_firstRevision` at the concrete
stale-active database. -/
theorem claim1_staleStart_firstRevision_witness :
    (handlerStartV1 2000000 (some "k") (some "o") c1Db).2.2 =
      [.statusWrite "inactive", .statusWrite "active", .logCreate "Парсер запущен"] ∧
    (handlerStartV1 2000000 (some "k") (some "o") c1Db).2.1.parserStatus =
      some ⟨"active", some 2000000, 0, []⟩ ∧
    (handlerStartV1 2000000 (some "k") (some "o") c1Db).2.1.parserLogs =
      c1Db.parserLogs ++ [⟨"Парсер запущен", "", 2000000⟩] :=
  claim1_staleStart_firstRevision 2000000 0 (some "k") (some "o") c1Db
    ⟨"active", some 0, 5, []⟩ rfl rfl rfl (by decide)

/-- C2: a start request while the status row is `active` with a
`lastRun` less than thirty minutes old is rejected with 400 by both
revisions of the handler, with the database (status row and log table)
left unchanged and no write performed. -/
theorem claim2_freshActive_rejected (now t : Int) (kApi oApi eK eO : Option String)
    (db : Db) (st : ParserStatusRow)
    (hst : db.parserStatus = some st)
    (hactive : st.status = "active")
    (hlast : st.lastRun = some t)
    (hfresh : now - t < thirtyMinutesMs) :
    handlerStartV1 now kApi oApi db = (⟨400, "Парсер уже запущен"⟩, db, []) ∧
    handlerStartV2 now eK eO db = (⟨400, "Парсер уже запущен"⟩, db, []) := by
  have hns : ¬ t < now - thirtyMinutesMs := by omega
  unfold handlerStartV1 handlerStartV2
  rw [hst]
  simp [hactive, hlast, hns]

/-- A fresh-active database: status `active`, `lastRun` ten minutes
(600000 ms) before the query time. -/
def c2Db : Db :=
  ⟨some ⟨"active", some 1000000, 3, []⟩, none, [⟨"Парсер запущен", "", 1000000⟩]⟩

/-- Witness for `claim2_freshActive_rejected` at the concrete
fresh-active database. -/
theorem claim2_freshActive_rejected_witness :
    handlerStartV1 1600000 (some "k") (some "o") c2Db =
      (⟨400, "Парсер уже запущен"⟩, c2Db, []) ∧
    handlerStartV2 1600000 (some "k") (some "o") c2Db =
      (⟨400, "Парсер уже запущен"⟩, c2Db, []) :=
  claim2_freshActive_rejected 1600000 1000000 (some "k") (some "o") (some "k") (some "o")
    c2Db ⟨"active", some 1000000, 3, []⟩ rfl rfl rfl (by decide)

/-- The first-revision start handler's active guard lets the request
through: either there is no status row, or it is not `active`, or it is
`active` but stale. -/
def startGuardPassesV1 (now : Int) (db : Db) : Prop :=
  match db.parserStatus with
  | some st => st.status = "active" → ∃ t, st.lastRun = some t ∧ t < now - thirtyMinutesMs
  | none => True

/-- C10: a first-revision start request that passes the active guard but
lacks one of the body API keys is answered 400 — yet by then the status
row has already been set to `active` and the "Парсер запущен" log row has
been created, and the error response rolls nothing back. -/
theorem claim10_missingKeys_after_writes (now : Int) (kApi oApi : Option String)
    (db : Db)
    (hguard : startGuardPassesV1 now db)
    (hkeys : ¬ jsTruthy kApi ∨ ¬ jsTruthy oApi) :
    (handlerStartV1 now kApi oApi db).1 = ⟨400, "Необходимо указать API ключи"⟩ ∧
    (handlerStartV1 now kApi oApi db).2.1.parserStatus =
      some ⟨"active", some now, 0, []⟩ ∧
    (handlerStartV1 now kApi oApi db).2.1.parserLogs =
      db.parserLogs ++ [⟨"Парсер запущен", "", now⟩] := by
  have hkeys' : jsTruthy kApi = false ∨ jsTruthy oApi = false := by
    simpa using hkeys
  unfold handlerStartV1
  unfold startGuardPassesV1 at hguard
  cases hdb : db.parserStatus with
  | none =>
    exact ⟨startProceedV1_missingKeys _ _ _ _ _ hkeys',
      by rw [startProceedV1_snd], by rw [startProceedV1_snd]⟩
  | some st =>
    rw [hdb] at hguard
    by_cases hactive : st.status = "active"
    · obtain ⟨t, hlast, hstale⟩ := hguard hactive
      simp only [hactive, hlast, hstale, eq_self_iff_true, if_true]
      exact ⟨startProceedV1_missingKeys _ _ _ _ _ hkeys',
        by rw [startProceedV1_snd], by rw [startProceedV1_snd]⟩
    · simp only [hactive, if_neg hactive, if_false]
      exact ⟨startProceedV1_missingKeys _ _ _ _ _ hkeys',
        by rw [startProceedV1_snd], by rw [startProceedV1_snd]⟩

/-- Witness for `claim10_missingKeys_after_writes`: inactive status row,
body missing the OMDb key. -/
theorem claim10_missingKeys_after_writes_witness :
    (handlerStartV1 500 (some "k") none
        (⟨some ⟨"inactive", none, 0, []⟩, none, []⟩ : Db)).1 =
      ⟨400, "Необходимо указать API ключи"⟩ ∧
    (handlerStartV1 500 (some "k") none
        (⟨some ⟨"inactive", none, 0, []⟩, none, []⟩ : Db)).2.1.parserStatus =
      some ⟨"active", some 500, 0, []⟩ ∧
    (handlerStartV1 500 (some "k") none
        (⟨some ⟨"inactive", none, 0, []⟩, none, []⟩ : Db)).2.1.parserLogs =
      (⟨some ⟨"inactive", none, 0, []⟩, none, []⟩ : Db).parserLogs ++
        [⟨"Парсер запущен", "", 500⟩] :=
  claim10_missingKeys_after_writes 500 (some "k") none
    ⟨some ⟨"inactive", none, 0, []⟩, none, []⟩
    (by intro h; exact absurd h (by decide))
    (by right; decide)

/-- Settings row cached before the C5 counterexample's PUT. -/
def c5Old : ParserSettingsRow := ⟨"oldK", "oldO", 24, true, ["movies"]⟩

/-- Settings row saved by the C5 counterexample's PUT. -/
def c5New : ParserSettingsRow := ⟨"newK", "newO", 12, false, ["movies"]⟩

/-- Status row present throughout the C5 counterexample. -/
def c5Status : ParserStatusRow := ⟨"inactive", none, 0, []⟩

/-- Database before the C5 counterexample's PUT. -/
def c5Db : Db := ⟨some c5Status, some c5Old, []⟩

/-- Cache of the C5 counterexample: user 7's entry was populated by a GET
at time 0, before the PUT. -/
def c5Cache : Cache := [(7, ⟨⟨⟨some c5Old, some c5Status⟩, 0⟩, 0⟩)]

/-- C5 counterexample: user 7's cache entry predates the PUT of `c5New`
and, at the GET one second later, is still within both the one-minute map
TTL and the five-second handler gate — and the GET returns the cached
pre-PUT settings `c5Old`, not the settings that were just saved. -/
theorem claim5_counterexample_staleCacheHit :
    (handlerGetV1 1000 7 (handlerPutV1 c5New c5Db).2 c5Cache).1 =
      ⟨200, some ⟨some c5Old, some c5Status⟩⟩ ∧
    c5Old ≠ c5New :=
  ⟨rfl, by decide⟩

/-- A GET that reaches the database right after a PUT returns the saved
settings, provided the status singleton already exists. -/
theorem roundTripDbRead (now : Int) (userId : Nat) (body : ParserSettingsRow)
    (db : Db) (c : Cache)
    (hstatus : db.parserStatus.isSome = true) :
    (handlerGetDbV1 now userId (handlerPutV1 body db).2 c).1 =
      ⟨200, some ⟨some body, db.parserStatus⟩⟩ := by
  obtain ⟨st, hst⟩ := Option.isSome_iff_exists.mp hstatus
  unfold handlerPutV1 handlerGetDbV1
  simp [hst]

/-- C5 (amended): the PUT→GET round-trip holds exactly when the
requesting user's cache entry does not satisfy the handler's freshness
gate (absent, or at least `cacheLifetime` old); then, provided the status
singleton exists (otherwise the initialization branch 503s on the
conflicting create), the GET returns precisely the settings values just
saved.  A within-gate cache entry is served as-is instead, as the
counterexample shows. -/
theorem claim5_roundTrip_freshCacheMiss (now : Int) (userId : Nat)
    (body : ParserSettingsRow) (db : Db) (c : Cache)
    (hstatus : db.parserStatus.isSome = true)
    (hc : ∀ e, cacheGet c userId = some e → cacheLifetime ≤ now - e.value.timestamp) :
    (handlerGetV1 now userId (handlerPutV1 body db).2 c).1 =
      ⟨200, some ⟨some body, db.parserStatus⟩⟩ := by
  unfold handlerGetV1 getCachedData
  cases hget : cacheGet (c := c) (k := userId) with
  | none => exact roundTripDbRead now userId body db _ hstatus
  | some e =>
    have hfresh : ¬ now - e.value.timestamp < cacheLifetime := by
      have := hc e hget
      omega
    by_cases httl : now - e.timestamp < CACHE_TTL
    · simp only [httl, if_true, hfresh, if_false]
      exact roundTripDbRead now userId body db _ hstatus
    · simp only [httl, if_false]
      exact roundTripDbRead now userId body db _ hstatus

/-- Witness for `claim5_roundTrip_freshCacheMiss`: empty cache, status
row present. -/
theorem claim5_roundTrip_freshCacheMiss_witness :
    (handlerGetV1 1000 7 (handlerPutV1 c5New c5Db).2 []).1 =
      ⟨200, some ⟨some c5New, c5Db.parserStatus⟩⟩ :=
  claim5_roundTrip_freshCacheMiss 1000 7 c5New c5Db [] rfl
    (fun _ h => nomatch h)

end ParserApi

namespace VideoProc

/-- Setting one media row's status via `List.map` commutes with
`find?` on the id predicate. -/
theorem find?_map_status (l : List Media) (mediaId : Nat) (s : String) :
    (l.map fun m => if m.id == mediaId then { m with status := s } else m).find?
        (fun m => m.id == mediaId) =
      (l.find? (fun m => m.id == mediaId)).map
        (fun m => { m with status := s }) := by
  induction l with
  | nil => rfl
  | cons a t ih =>
    by_cases h : (a.id == mediaId) = true
    · have h2 : (({ a with status := s } : Media).id == mediaId) = true := h
      rw [List.map_cons, if_pos h,
        @List.find?_cons_of_pos _ (fun (m : Media) => m.id == mediaId) { a with status := s } _ h2,
        @List.find?_cons_of_pos _ (fun (m : Media) => m.id == mediaId) a _ h]
      rfl
    · rw [List.map_cons, if_neg h,
        @List.find?_cons_of_neg _ (fun (m : Media) => m.id == mediaId) a _ h,
        @List.find?_cons_of_neg _ (fun (m : Media) => m.id == mediaId) a _ h]
      exact ih

/-- C6: for a media row whose `release_date` is strictly in the future,
`processMediaVideo` takes the trailer path exactly once and never calls
`getVideoSources` (hence none of the VK/RuTube/YouTube fetchers). -/
theorem claim6_futureRelease_trailerOnly (env : VPEnv) (now d : Int)
    (db : MediaDb) (mediaId : Nat) (sourceId : String) (m : Media)
    (hm : findUniqueMedia db mediaId = some m)
    (hd : m.release_date = some d)
    (hfuture : now < d) :
    countTrailerCalls (processMediaVideo env now db mediaId sourceId).2.2 = 1 ∧
    countProviderCalls (processMediaVideo env now db mediaId sourceId).2.2 = 0 := by
  have hrel : decide (d ≤ now) = false := decide_eq_false (by omega)
  unfold processMediaVideo processMediaVideoBody
  rw [hm]
  simp only [hd, hrel]
  cases hpt : processTrailer env db mediaId sourceId with
  | ok db1 => simp [hpt, countTrailerCalls, countProviderCalls]
  | error e =>
    cases hup : updateMediaStatus db mediaId "ERROR" with
    | ok db1 => simp [hpt, hup, countTrailerCalls, countProviderCalls]
    | error e2 => simp [hpt, hup, countTrailerCalls, countProviderCalls]

/-- Witness for `claim6_futureRelease_trailerOnly`: one media row
releasing at time 100, processed at time 50. -/
theorem claim6_futureRelease_trailerOnly_witness :
    countTrailerCalls (processMediaVideo ⟨fun _ => some "u", none, none⟩ 50
        ⟨[⟨1, some 100, "OK"⟩], []⟩ 1 "s").2.2 = 1 ∧
    countProviderCalls (processMediaVideo ⟨fun _ => some "u", none, none⟩ 50
        ⟨[⟨1, some 100, "OK"⟩], []⟩ 1 "s").2.2 = 0 :=
  claim6_futureRelease_trailerOnly ⟨fun _ => some "u", none, none⟩ 50 100
    ⟨[⟨1, some 100, "OK"⟩], []⟩ 1 "s" ⟨1, some 100, "OK"⟩ rfl rfl (by decide)

/-- C7: for a released media row, when provider resolution yields zero
sources (which the stub fetchers always do), `processMediaVideo` falls
back to the trailer path exactly once and never calls
`saveVideoSources`. -/
theorem claim7_zeroSources_trailerFallback (env : VPEnv) (now d : Int)
    (db : MediaDb) (mediaId : Nat) (sourceId : String) (m : Media)
    (hm : findUniqueMedia db mediaId = some m)
    (hd : m.release_date = some d)
    (hrel : d ≤ now)
    (hzero : (getVideoSources sourceId).1 = []) :
    countTrailerCalls (processMediaVideo env now db mediaId sourceId).2.2 = 1 ∧
    countSaveCalls (processMediaVideo env now db mediaId sourceId).2.2 = 0 := by
  have hreld : decide (d ≤ now) = true := decide_eq_true hrel
  unfold processMediaVideo processMediaVideoBody
  rw [hm]
  simp only [hd, hreld, getVideoSources, getVKVideoSources, getRuTubeVideoSources,
    getYouTubeVideoSources]
  cases hpt : processTrailer env db mediaId sourceId with
  | ok db1 => simp [hpt, countTrailerCalls, countSaveCalls]
  | error e =>
    cases hup : updateMediaStatus db mediaId "ERROR" with
    | ok db1 => simp [hpt, hup, countTrailerCalls, countSaveCalls]
    | error e2 => simp [hpt, hup, countTrailerCalls, countSaveCalls]

/-- Witness for `claim7_zeroSources_trailerFallback`: one released media
row (release 100, processed at 200). -/
theorem claim7_zeroSources_trailerFallback_witness :
    countTrailerCalls (processMediaVideo ⟨fun _ => some "u", none, none⟩ 200
        ⟨[⟨1, some 100, "OK"⟩], []⟩ 1 "s").2.2 = 1 ∧
    countSaveCalls (processMediaVideo ⟨fun _ => some "u", none, none⟩ 200
        ⟨[⟨1, some 100, "OK"⟩], []⟩ 1 "s").2.2 = 0 :=
  claim7_zeroSources_trailerFallback ⟨fun _ => some "u", none, none⟩ 200 100
    ⟨[⟨1, some 100, "OK"⟩], []⟩ 1 "s" ⟨1, some 100, "OK"⟩ rfl rfl (by decide) rfl

/-- Environment of the C8 counterexample (its fields are irrelevant to
the missing-media path). -/
def c8Env : VPEnv := ⟨fun _ => some "http://t", none, none⟩

/-- C8 counterexample: with no media row at id 1 the body throws
"Медиа не найдено", but the catch block's `updateMediaStatus` targets the
non-existent row and itself throws, so the caller receives the update
error — not the original exception — and no status is written anywhere
(the database is unchanged). -/
theorem claim8_counterexample_missingMedia :
    (processMediaVideo c8Env 0 ⟨[], []⟩ 1 "s").1 =
      .error "Record to update not found." ∧
    (processMediaVideo c8Env 0 ⟨[], []⟩ 1 "s").2.1 = ⟨[], []⟩ ∧
    "Record to update not found." ≠ "Медиа не найдено" :=
  ⟨rfl, rfl, by decide⟩

/-- C8 (amended): when an exception escapes the processing body *and the
media row exists* (trailer-processing failure or save failure), the row's
status is set to `ERROR` and the same exception is re-thrown; when the
row is missing, the status update in the catch block itself fails and its
error propagates instead, with nothing written. -/
theorem claim8_errorPath_existingMedia (env : VPEnv) (now : Int)
    (db : MediaDb) (mediaId : Nat) (sourceId : String) (e : String)
    (ev : List VPEvent) (m : Media)
    (hm : findUniqueMedia db mediaId = some m)
    (hbody : processMediaVideoBody env now db mediaId sourceId = (.error e, ev)) :
    (processMediaVideo env now db mediaId sourceId).1 = .error e ∧
    ((findUniqueMedia (processMediaVideo env now db mediaId sourceId).2.1 mediaId).map
        Media.status) = some "ERROR" := by
  have hsome : (findUniqueMedia db mediaId).isSome = true := by simp [hm]
  unfold processMediaVideo
  rw [hbody]
  unfold updateMediaStatus
  rw [if_pos hsome]
  refine ⟨rfl, ?_⟩
  unfold findUniqueMedia at hm ⊢
  simp only [find?_map_status, hm, Option.map_some]
  rfl

/-- Witness for `claim8_errorPath_existingMedia`: the trailer insert
fails with "boom" for a not-yet-released media row. -/
theorem claim8_errorPath_existingMedia_witness :
    (processMediaVideo ⟨fun _ => some "u", some "boom", none⟩ 0
        ⟨[⟨1, none, "OK"⟩], []⟩ 1 "s").1 = .error "boom" ∧
    ((findUniqueMedia (processMediaVideo ⟨fun _ => some "u", some "boom", none⟩ 0
        ⟨[⟨1, none, "OK"⟩], []⟩ 1 "s").2.1 1).map Media.status) = some "ERROR" :=
  claim8_errorPath_existingMedia ⟨fun _ => some "u", some "boom", none⟩ 0
    ⟨[⟨1, none, "OK"⟩], []⟩ 1 "s" "boom" [.processTrailerCall 1 "s"]
    ⟨1, none, "OK"⟩ rfl rfl

end VideoProc

namespace Auth

/-- A logged-out client state with an empty dispatch trace. -/
def ctx0 : Ctx := ⟨⟨none, ⟨false, none⟩, ⟨none, false, none⟩⟩, []⟩

/-- The server-side profile record used in the concrete login runs. -/
def c3Profile : UserProfile := ⟨"1", "u", "u@example.com", "USER"⟩

/-- A fully successful login environment: online, the login endpoint
returns token "tok", and every profile fetch succeeds with
`c3Profile`. -/
def c3Env : NetEnv := ⟨true, .ok "tok", fun _ => .ok c3Profile, fun _ => .failed⟩

/-- C3 counterexample: a fully successful login from the logged-out state
dispatches `setProfile` twice, not once — once inside the nested
`checkAuth` and once in `login`'s own profile fetch. -/
theorem claim3_counterexample_duplicateSetProfile :
    (login c3Env ctx0).1.success = true ∧
    countSetProfile (login c3Env ctx0).2.trace = 2 :=
  ⟨rfl, rfl⟩

/-- C3 (amended): a successful login (valid credentials, token returned,
profile fetches succeed) ends authenticated with the profile equal to the
server record, but the profile-setting dispatch occurs exactly twice per
login call — once by the nested `checkAuth` and once by `login` itself,
both with the server record. -/
theorem claim3_login_setsProfileTwice (env : NetEnv) (tk : String)
    (p : UserProfile) (c : Ctx)
    (hon : env.online = true)
    (hlogin : env.loginResp = .ok tk)
    (hprof : env.profileResp tk = .ok p) :
    (login env c).1.success = true ∧
    (login env c).2.state.auth.isAuthenticated = true ∧
    (login env c).2.state.user.profile = some p ∧
    countSetProfile (login env c).2.trace = countSetProfile c.trace + 2 := by
  simp [login, loginProfileLoop, checkAuth, checkAuthLoop, getToken, setToken,
    dispatch, applyAction, applyAuthAction, applyUserAction, hon, hlogin, hprof,
    countSetProfile]

/-- Witness for `claim3_login_setsProfileTwice` at the concrete
environment and logged-out initial state. -/
theorem claim3_login_setsProfileTwice_witness :
    (login c3Env ctx0).1.success = true ∧
    (login c3Env ctx0).2.state.auth.isAuthenticated = true ∧
    (login c3Env ctx0).2.state.user.profile = some c3Profile ∧
    countSetProfile (login c3Env ctx0).2.trace = countSetProfile ctx0.trace + 2 :=
  claim3_login_setsProfileTwice c3Env "tok" c3Profile ctx0 rfl rfl rfl

/-- C4: when the stored token is absent, or the profile endpoint answers
401 and the refresh endpoint cannot produce a token (and the client is
online, so the offline early-return of the catch block does not apply),
`checkAuth` ends logged-out: it reports false, the stored token is gone,
`isAuthenticated` is false, and no profile is left in state. -/
theorem claim4_checkAuth_clears (env : NetEnv) (c : Ctx)
    (h : c.state.storedToken = none ∨
      (env.online = true ∧ ∃ t, c.state.storedToken = some t ∧
        env.profileResp t = .unauthorized ∧ (env.refreshResp t).isFailure = true)) :
    (checkAuth env c).1 = false ∧
    (checkAuth env c).2.state.storedToken = none ∧
    (checkAuth env c).2.state.auth.isAuthenticated = false ∧
    (checkAuth env c).2.state.user.profile = none := by
  rcases h with h | ⟨hon, t, htok, hprof, href⟩
  · simp [checkAuth, getToken, h, dispatch, applyAction, applyAuthAction,
      applyUserAction]
  · cases hr : env.refreshResp t with
    | ok nt => rw [hr] at href; exact absurd href (by simp [RefreshResp.isFailure])
    | okNoToken =>
      simp [checkAuth, checkAuthLoop, refreshToken, getToken, setToken, removeToken,
        dispatch, applyAction, applyAuthAction, applyUserAction, htok, hprof, hr, hon]
    | unauthorized =>
      simp [checkAuth, checkAuthLoop, refreshToken, getToken, setToken, removeToken,
        dispatch, applyAction, applyAuthAction, applyUserAction, htok, hprof, hr, hon]
    | failed =>
      simp [checkAuth, checkAuthLoop, refreshToken, getToken, setToken, removeToken,
        dispatch, applyAction, applyAuthAction, applyUserAction, htok, hprof, hr, hon]

/-- A client state holding an expired token and a stale profile. -/
def c4Ctx : Ctx := ⟨⟨some "expired", ⟨true, none⟩, ⟨some c3Profile, false, none⟩⟩, []⟩

/-- Environment of the C4 witness: online, profile always 401, refresh
always fails. -/
def c4Env : NetEnv := ⟨true, .badBody, fun _ => .unauthorized, fun _ => .failed⟩

/-- Witness for `claim4_checkAuth_clears`: an expired, unrefreshable
token with a stale profile in state. -/
theorem claim4_checkAuth_clears_witness :
    (checkAuth c4Env c4Ctx).1 = false ∧
    (checkAuth c4Env c4Ctx).2.state.storedToken = none ∧
    (checkAuth c4Env c4Ctx).2.state.auth.isAuthenticated = false ∧
    (checkAuth c4Env c4Ctx).2.state.user.profile = none :=
  claim4_checkAuth_clears c4Env c4Ctx
    (Or.inr ⟨rfl, "expired", rfl, rfl, rfl⟩)

/-- C9: a login attempt answered 400, 401 or 500 returns a typed failure
with a message, and persists nothing: the stored token and the profile in
state are exactly what they were before the call (no `setToken`,
`removeToken`, `setProfile` or `clearProfile` happens on this path). -/
theorem claim9_login_failure_persistsNothing (env : NetEnv) (c : Ctx)
    (code : Nat) (errMsg : Option String)
    (hon : env.online = true)
    (hresp : env.loginResp = .errorResp code errMsg)
    (hcode : code = 400 ∨ code = 401 ∨ code = 500) :
    (login env c).1.success = false ∧
    (login env c).1.error.isSome = true ∧
    (login env c).2.state.storedToken = c.state.storedToken ∧
    (login env c).2.state.user.profile = c.state.user.profile := by
  simp [login, hon, hresp, dispatch, applyAction, applyAuthAction, applyUserAction]

/-- Environment of the C9 witness: the login endpoint answers 401. -/
def c9Env : NetEnv :=
  ⟨true, .errorResp 401 (some "Неверные учетные данные"),
    fun _ => .unauthorized, fun _ => .failed⟩

/-- Witness for `claim9_login_failure_persistsNothing` at a 401 response
from an already-authenticated state, whose token and profile survive. -/
theorem claim9_login_failure_persistsNothing_witness :
    (login c9Env c4Ctx).1.success = false ∧
    (login c9Env c4Ctx).1.error.isSome = true ∧
    (login c9Env c4Ctx).2.state.storedToken = c4Ctx.state.storedToken ∧
    (login c9Env c4Ctx).2.state.user.profile = c4Ctx.state.user.profile :=
  claim9_login_failure_persistsNothing c9Env c4Ctx 401
    (some "Неверные учетные данные") rfl rfl (Or.inr (Or.inl rfl))

end Auth
